import Mathlib

/-!
# Register semantics of the Tegra board devices `arm_l2x0` and `tegra_sflash`

Shallow embedding of `hw/arm_l2x0.c` (dummy L2 cache controller) and
`hw/tegra_sflash.c` (SPI flash controller).

* `uint32_t` values are natural numbers; `shl32` and `not32` truncate to 32 bits
  where the C operator can leave the 32-bit range.
* The two device structs keep their register fields; the embedded
  `SysBusDevice busdev` header (and `qemu_irq irq` of the flash controller) are
  framework handles that no function of the two files reads or writes.
* `fprintf(stderr, ...)`, `DPRINTF` and `hw_error` calls are recorded as a format
  string with its arguments; `hw_error` does not return and ends the access.
-/

namespace Tegra

/-! ## Machine arithmetic -/

/-- Left shift of a `uint32_t`, truncated to 32 bits. -/
def shl32 (x n : Nat) : Nat := (x <<< n) % 2 ^ 32

/-- Bitwise complement of a `uint32_t`. -/
def not32 (x : Nat) : Nat := 2 ^ 32 - 1 - x % 2 ^ 32

/-- One formatted message: the format string and its arguments. -/
structure Diag where
  fmt : String
  args : List Nat
deriving DecidableEq

/-! ## `hw/arm_l2x0.c` -/

/-- The constant `CACHE_ID` (L2C-310 r3p2). -/
def CACHE_ID : Nat := 0x410000c8

/-- The register fields of `struct l2x0_state`. -/
structure l2x0_state where
  cache_type : Nat
  ctrl : Nat
  aux_ctrl : Nat
  data_ctrl : Nat
  tag_ctrl : Nat
  filter_start : Nat
  filter_end : Nat
deriving DecidableEq

/-- Outcome of `l2x0_priv_read`: the returned word, the device state after the
access, and the message printed on `stderr`, if any. -/
structure l2x0_read_result where
  value : Nat
  state : l2x0_state
  diag : Option Diag
deriving DecidableEq

/-- Outcome of `l2x0_priv_write`: the device state after the access and the
message printed on `stderr`, if any. -/
structure l2x0_write_result where
  state : l2x0_state
  diag : Option Diag
deriving DecidableEq

/-- The function `l2x0_priv_read`. -/
def l2x0_priv_read (s : l2x0_state) (offset : Nat) : l2x0_read_result :=
  let offset := offset &&& 0xfff
  if 0x730 ≤ offset ∧ offset < 0x800 then
    ⟨0, s, none⟩
  else if offset = 0 then
    ⟨CACHE_ID, s, none⟩
  else if offset = 0x4 then
    let cache_data := (s.aux_ctrl &&& (7 <<< 17)) >>> 15
    let cache_data := cache_data ||| ((s.aux_ctrl &&& (1 <<< 16)) >>> 16)
    let cache_type := s.cache_type ||| (shl32 cache_data 18 ||| shl32 cache_data 6)
    ⟨cache_type, { s with cache_type := cache_type }, none⟩
  else if offset = 0x100 then
    ⟨s.ctrl, s, none⟩
  else if offset = 0x104 then
    ⟨s.aux_ctrl, s, none⟩
  else if offset = 0x108 then
    ⟨s.tag_ctrl, s, none⟩
  else if offset = 0x10C then
    ⟨s.data_ctrl, s, none⟩
  else if offset = 0xC00 then
    ⟨s.filter_start, s, none⟩
  else if offset = 0xC04 then
    ⟨s.filter_end, s, none⟩
  else if offset = 0xF40 then
    ⟨0, s, none⟩
  else if offset = 0xF60 then
    ⟨0, s, none⟩
  else if offset = 0xF80 then
    ⟨0, s, none⟩
  else
    ⟨0, s, some ⟨"l2x0_priv_read: Bad offset %x\n", [offset % 2 ^ 32]⟩⟩

/-- The function `l2x0_priv_write`; `value` ranges over `uint32_t`. -/
def l2x0_priv_write (s : l2x0_state) (offset : Nat) (value : Nat) : l2x0_write_result :=
  let offset := offset &&& 0xfff
  if 0x730 ≤ offset ∧ offset < 0x800 then
    ⟨s, none⟩
  else if offset = 0x100 then
    ⟨{ s with ctrl := value &&& 1 }, none⟩
  else if offset = 0x104 then
    ⟨{ s with aux_ctrl := value }, none⟩
  else if offset = 0x108 then
    ⟨{ s with tag_ctrl := value }, none⟩
  else if offset = 0x10C then
    ⟨{ s with data_ctrl := value }, none⟩
  else if offset = 0xC00 then
    ⟨{ s with filter_start := value }, none⟩
  else if offset = 0xC04 then
    ⟨{ s with filter_end := value }, none⟩
  else if offset = 0xF40 then
    ⟨s, none⟩
  else if offset = 0xF60 then
    ⟨s, none⟩
  else if offset = 0xF80 then
    ⟨s, none⟩
  else
    ⟨s, some ⟨"l2x0_priv_write: Bad offset %x\n", [offset % 2 ^ 32]⟩⟩

/-- The function `l2x0_priv_reset`. -/
def l2x0_priv_reset (s : l2x0_state) : l2x0_state :=
  { s with
    ctrl := 0
    aux_ctrl := 0x02020000
    tag_ctrl := 0
    data_ctrl := 0
    filter_start := 0
    filter_end := 0 }

/-- The field list of `vmstate_l2x0`, in its order. -/
def vmstate_l2x0 (s : l2x0_state) : List Nat :=
  [s.ctrl, s.aux_ctrl, s.data_ctrl, s.tag_ctrl, s.filter_start, s.filter_end]

/-- Modelled from the spec: the framework routine that loads a saved field list
into an instance is not part of the two files. It stores the six words of the
`vmstate_l2x0` list, in its order, into the fields the list names and leaves
every other field of the receiving instance as it is; a list of another length
is refused. -/
def l2x0_deserialize (s : l2x0_state) : List Nat → Option l2x0_state
  | [c, a, d, t, fs, fe] =>
    some { s with ctrl := c, aux_ctrl := a, data_ctrl := d, tag_ctrl := t,
                  filter_start := fs, filter_end := fe }
  | _ => none

/-- Modelled from the spec: construction by the device framework is not part of
the two files. The instance is allocated zeroed and the property `type`
(default `0x1c100100`) is stored in `cache_type`. -/
def l2x0_construct (type : Nat) : l2x0_state :=
  { cache_type := type, ctrl := 0, aux_ctrl := 0, data_ctrl := 0, tag_ctrl := 0,
    filter_start := 0, filter_end := 0 }

/-- A constructed device after its first reset. -/
def l2x0_init (type : Nat) : l2x0_state := l2x0_priv_reset (l2x0_construct type)

/-- One access of the host to the cache controller. -/
inductive l2x0_op where
  | read (offset : Nat)
  | write (offset : Nat) (value : Nat)
  | reset
deriving DecidableEq

/-- The device state after one access. -/
def l2x0_step (s : l2x0_state) : l2x0_op → l2x0_state
  | .read offset => (l2x0_priv_read s offset).state
  | .write offset value => (l2x0_priv_write s offset value).state
  | .reset => l2x0_priv_reset s

/-- The device state after a sequence of accesses, oldest first. -/
def l2x0_run (s : l2x0_state) (ops : List l2x0_op) : l2x0_state :=
  ops.foldl l2x0_step s

/-! ## `hw/tegra_sflash.c` -/

/-- The constant `SFLASH_STAT_COW`: clear-on-write bits of the status register. -/
def SFLASH_STAT_COW : Nat := 0x4C000000

/-- The constant `SFLASH_STAT_RO`: read-only bits of the status register. -/
def SFLASH_STAT_RO : Nat := 0x83C00000

/-- The register fields of `tegra_sflash_state`. -/
structure tegra_sflash_state where
  command : Nat
  status : Nat
  rx_cmp : Nat
  dma_ctl : Nat
deriving DecidableEq

/-- An access of the flash controller ended by `hw_error`: the message passed to
it and the device state at the call. -/
structure sflash_fatal where
  diag : Diag
  state : tegra_sflash_state
deriving DecidableEq

/-- Outcome of an access to the flash controller: the `DPRINTF` trace line
printed on entry, and either the `hw_error` call that ended the access or its
normal result. -/
structure sflash_result (α : Type) where
  trace : Diag
  outcome : Except sflash_fatal α

/-- The function `tegra_sflash_read`: a normal outcome is the returned word and
the device state after the access. -/
def tegra_sflash_read (s : tegra_sflash_state) (offset : Nat) :
    sflash_result (Nat × tegra_sflash_state) :=
  { trace := ⟨"READ at %x status: 0x%x\n", [offset, s.status]⟩
    outcome :=
      if offset = 0x00 then
        .ok (s.command, s)
      else if offset = 0x04 then
        .ok (s.status, s)
      else if offset = 0x08 then
        let rx_cmp := s.rx_cmp ||| 0x00800000
        let rx_cmp := rx_cmp ||| 0x00200000
        let rx_cmp := rx_cmp ||| 0x40000000
        .ok (rx_cmp, { s with rx_cmp := rx_cmp })
      else if offset = 0x0c then
        .ok (s.dma_ctl, s)
      else if offset = 0x10 then
        .error ⟨⟨"tegra_sflash_read: Write only register\n", []⟩, s⟩
      else if offset = 0x1c then
        .ok (0, s)
      else if offset = 0x20 then
        .ok (0, s)
      else if offset = 0x100 then
        .error ⟨⟨"tegra_sflash_read: Write only register\n", []⟩, s⟩
      else if offset = 0x180 then
        .ok (0, s)
      else
        .error ⟨⟨"tegra_sflash_read: Bad offset %x\n", [offset % 2 ^ 32]⟩, s⟩ }

/-- The function `tegra_sflash_write`; `value` ranges over `uint32_t`. A normal
outcome is the device state after the access. -/
def tegra_sflash_write (s : tegra_sflash_state) (offset : Nat) (value : Nat) :
    sflash_result tegra_sflash_state :=
  { trace := ⟨"WRITE at %x <= %x\n", [offset, value]⟩
    outcome :=
      if offset = 0x00 then
        let s := { s with command := value &&& 0x1c2dffff }
        if value &&& 0x40000000 ≠ 0 then
          .ok { s with status := s.status ||| (1 <<< 30) }
        else
          .ok s
      else if offset = 0x04 then
        let s := { s with status := value &&& not32 (SFLASH_STAT_RO ||| SFLASH_STAT_COW) }
        .ok { s with status := s.status &&& not32 (value &&& SFLASH_STAT_COW) }
      else if offset = 0x08 then
        .ok { s with rx_cmp := value &&& 0x1ffff }
      else if offset = 0x0c then
        .ok { s with dma_ctl := value }
      else if offset = 0x10 then
        .ok s
      else if offset = 0x1c then
        .ok s
      else if offset = 0x20 then
        .error ⟨⟨"tegra_sflash_read: Read only register\n", []⟩, s⟩
      else if offset = 0x100 then
        .ok s
      else if offset = 0x180 then
        .error ⟨⟨"tegra_sflash_read: Read only register\n", []⟩, s⟩
      else
        .error ⟨⟨"tegra_sflash_write: Bad offset %x\n", [offset % 2 ^ 32]⟩, s⟩ }

/-- The function `tegra_sflash_reset`. -/
def tegra_sflash_reset (s : tegra_sflash_state) : tegra_sflash_state :=
  { s with
    command := 0x10000420
    status := 0x02800000
    rx_cmp := 0
    dma_ctl := 0 }

/-- The field list of `tegra_sflash_vmstate`, in its order. -/
def tegra_sflash_vmstate (s : tegra_sflash_state) : List Nat :=
  [s.command, s.status, s.rx_cmp, s.dma_ctl]

/-- Modelled from the spec: the framework routine that loads a saved field list
into an instance is not part of the two files. It stores the four words of the
`tegra_sflash_vmstate` list, in its order, into the fields the list names; a list
of another length is refused. -/
def tegra_sflash_deserialize (s : tegra_sflash_state) : List Nat → Option tegra_sflash_state
  | [c, st, rx, dma] => some { s with command := c, status := st, rx_cmp := rx, dma_ctl := dma }
  | _ => none

/-- Whether the text of a message begins with the text `p`. -/
def diag_begins_with (d : Diag) (p : String) : Bool :=
  p.toList.isPrefixOf d.fmt.toList

/-- The value of the local `cache_data` of `l2x0_priv_read` (case `0x4`) when
Aux Control holds `aux_ctrl`. -/
def l2x0_cache_data (aux_ctrl : Nat) : Nat :=
  ((aux_ctrl &&& (7 <<< 17)) >>> 15) ||| ((aux_ctrl &&& (1 <<< 16)) >>> 16)

/-- The bits that `l2x0_priv_read` (case `0x4`) ors into the stored cache type when
Aux Control holds `aux_ctrl`. -/
def l2x0_derived_bits (aux_ctrl : Nat) : Nat :=
  shl32 (l2x0_cache_data aux_ctrl) 18 ||| shl32 (l2x0_cache_data aux_ctrl) 6

/-- Whether an access is a read decoded as Cache Type (offset `0x004` after masking). -/
def l2x0_is_cache_type_read : l2x0_op → Bool
  | .read offset => decide (offset &&& 0xfff = 0x4)
  | _ => false

/-- Modelled from the spec: construction by the device framework is not part of
the two files. The instance is allocated zeroed. -/
def tegra_sflash_construct : tegra_sflash_state :=
  { command := 0, status := 0, rx_cmp := 0, dma_ctl := 0 }

/-- A constructed flash controller after its first reset. -/
def tegra_sflash_init : tegra_sflash_state := tegra_sflash_reset tegra_sflash_construct

/-- The bits derived at the Cache Type reads of a sequence of accesses that starts
in state `s`: the union, over the accesses decoded as Cache Type reads, of the bits
derived from the Aux Control value held at that access. -/
def l2x0_read_bits (s : l2x0_state) : List l2x0_op → Nat
  | [] => 0
  | op :: ops =>
    (if l2x0_is_cache_type_read op then l2x0_derived_bits s.aux_ctrl else 0) |||
      l2x0_read_bits (l2x0_step s op) ops

/-- Whether every Cache Type read of a sequence of accesses that starts in state `s`
happens while the bits derived from Aux Control are already set in `B`. -/
def l2x0_reads_within (B : Nat) (s : l2x0_state) : List l2x0_op → Bool
  | [] => true
  | op :: ops =>
    (if l2x0_is_cache_type_read op then decide (B ||| l2x0_derived_bits s.aux_ctrl = B)
      else true) &&
      l2x0_reads_within B (l2x0_step s op) ops

/-! ## Helper lemmas -/

theorem testBit_seven (i : Nat) : Nat.testBit 7 i = decide (i < 3) := by
  have h : (7 : Nat) = 2 ^ 3 - 1 := by decide
  rw [h, Nat.testBit_two_pow_sub_one]

theorem testBit_one (i : Nat) : Nat.testBit 1 i = decide (i = 0) := by
  have h : (1 : Nat) = 2 ^ 0 := by decide
  rw [h, Nat.testBit_two_pow]
  by_cases hi : i = 0 <;> simp [hi, eq_comm]

theorem testBit_seven_shl (i : Nat) :
    Nat.testBit (7 <<< 17) i = (decide (17 ≤ i) && decide (i - 17 < 3)) := by
  rw [Nat.testBit_shiftLeft, testBit_seven]

theorem testBit_one_shl (i : Nat) : Nat.testBit (1 <<< 16) i = decide (i = 16) := by
  rw [Nat.one_shiftLeft, Nat.testBit_two_pow]
  by_cases hi : i = 16 <;> simp [hi, eq_comm]

/-- A masked offset fits the `int` it is printed as. -/
theorem masked_offset_mod (o : Nat) : (o &&& 0xfff) % 2 ^ 32 = o &&& 0xfff := by
  apply Nat.mod_eq_of_lt
  have h : o &&& 0xfff ≤ 0xfff := Nat.and_le_right
  omega

/-- Reading at an offset whose 12-bit value is `0x004`. -/
theorem l2x0_read_cache_type (s : l2x0_state) (o : Nat) (h : o &&& 0xfff = 0x4) :
    l2x0_priv_read s o =
      ⟨s.cache_type ||| l2x0_derived_bits s.aux_ctrl,
       { s with cache_type := s.cache_type ||| l2x0_derived_bits s.aux_ctrl }, none⟩ := by
  unfold l2x0_priv_read l2x0_derived_bits l2x0_cache_data
  dsimp only
  rw [h, if_neg (by decide), if_neg (by decide), if_pos rfl]

/-- A read at an offset whose 12-bit value is not `0x004` leaves the state as it is. -/
theorem l2x0_read_state_of_ne (s : l2x0_state) (o : Nat) (h : o &&& 0xfff ≠ 0x4) :
    (l2x0_priv_read s o).state = s := by
  unfold l2x0_priv_read
  dsimp only
  generalize o &&& 0xfff = m at h
  simp only [apply_ite l2x0_read_result.state, if_neg h, ite_self]

/-- No write changes the stored cache type. -/
theorem l2x0_write_cache_type (s : l2x0_state) (o v : Nat) :
    (l2x0_priv_write s o v).state.cache_type = s.cache_type := by
  unfold l2x0_priv_write
  dsimp only
  generalize o &&& 0xfff = m
  simp only [apply_ite l2x0_write_result.state, apply_ite l2x0_state.cache_type, ite_self]

/-- With the Aux Control bits 16 to 19 clear nothing is derived. -/
theorem l2x0_derived_bits_zero : l2x0_derived_bits 0 = 0 := by decide

/-- An access that is not a Cache Type read keeps the stored cache type. -/
theorem l2x0_step_cache_type (s : l2x0_state) (op : l2x0_op)
    (h : l2x0_is_cache_type_read op = false) :
    (l2x0_step s op).cache_type = s.cache_type := by
  cases op with
  | read o =>
    have ho : o &&& 0xfff ≠ 0x4 := by simpa [l2x0_is_cache_type_read] using h
    show (l2x0_priv_read s o).state.cache_type = s.cache_type
    rw [l2x0_read_state_of_ne s o ho]
  | write o v => exact l2x0_write_cache_type s o v
  | reset => rfl

/-- A run without Cache Type reads keeps the stored cache type. -/
theorem l2x0_run_cache_type (ops : List l2x0_op) :
    ∀ s : l2x0_state, (∀ op ∈ ops, l2x0_is_cache_type_read op = false) →
      (l2x0_run s ops).cache_type = s.cache_type := by
  induction ops with
  | nil => intro s _; rfl
  | cons op ops ih =>
    intro s h
    show (l2x0_run (l2x0_step s op) ops).cache_type = s.cache_type
    rw [ih (l2x0_step s op) (fun op' hop => h op' (List.mem_cons_of_mem _ hop)),
      l2x0_step_cache_type s op (h op (List.mem_cons_self _ _))]

/-- A Cache Type read ors the derived bits into the stored cache type. -/
theorem l2x0_step_cache_type_of_read (s : l2x0_state) (op : l2x0_op)
    (h : l2x0_is_cache_type_read op = true) :
    (l2x0_step s op).cache_type = s.cache_type ||| l2x0_derived_bits s.aux_ctrl := by
  cases op with
  | read o =>
    have ho : o &&& 0xfff = 0x4 := by simpa [l2x0_is_cache_type_read] using h
    show (l2x0_priv_read s o).state.cache_type = _
    rw [l2x0_read_cache_type s o ho]
  | write o v => exact absurd h (by simp [l2x0_is_cache_type_read])
  | reset => exact absurd h (by simp [l2x0_is_cache_type_read])

/-- After a run the stored cache type is the one before the run or-ed with the
bits derived at the Cache Type reads of the run. -/
theorem l2x0_run_cache_type_eq (ops : List l2x0_op) :
    ∀ s : l2x0_state,
      (l2x0_run s ops).cache_type = s.cache_type ||| l2x0_read_bits s ops := by
  induction ops with
  | nil =>
    intro s
    show s.cache_type = s.cache_type ||| 0
    rw [Nat.or_zero]
  | cons op ops ih =>
    intro s
    show (l2x0_run (l2x0_step s op) ops).cache_type =
      s.cache_type ||| ((if l2x0_is_cache_type_read op then l2x0_derived_bits s.aux_ctrl
        else 0) ||| l2x0_read_bits (l2x0_step s op) ops)
    rw [ih (l2x0_step s op)]
    cases hop : l2x0_is_cache_type_read op
    · rw [l2x0_step_cache_type s op hop, if_neg (by simp), Nat.zero_or]
    · rw [l2x0_step_cache_type_of_read s op hop, if_pos rfl, Nat.or_assoc]

/-- A union of two words adds nothing to `b` exactly when neither word does. -/
theorem or_or_eq_left_iff (b x y : Nat) :
    b ||| (x ||| y) = b ↔ b ||| x = b ∧ b ||| y = b := by
  constructor
  · intro h
    have hb : ∀ i, (Nat.testBit b i || (Nat.testBit x i || Nat.testBit y i)) =
        Nat.testBit b i := by
      intro i
      rw [← Nat.testBit_or, ← Nat.testBit_or, h]
    constructor
    · apply Nat.eq_of_testBit_eq
      intro i
      have hi := hb i
      rw [Nat.testBit_or]
      cases hbi : Nat.testBit b i <;> cases hxi : Nat.testBit x i <;>
        cases hyi : Nat.testBit y i <;> simp_all
    · apply Nat.eq_of_testBit_eq
      intro i
      have hi := hb i
      rw [Nat.testBit_or]
      cases hbi : Nat.testBit b i <;> cases hxi : Nat.testBit x i <;>
        cases hyi : Nat.testBit y i <;> simp_all
  · rintro ⟨hx, hy⟩
    rw [← Nat.or_assoc, hx, hy]

/-- The Cache Type reads of a run all happen while the derived bits are set in `B`
exactly when the bits derived at those reads add nothing to `B`. -/
theorem l2x0_reads_within_iff (B : Nat) (ops : List l2x0_op) :
    ∀ s : l2x0_state,
      l2x0_reads_within B s ops = true ↔ B ||| l2x0_read_bits s ops = B := by
  induction ops with
  | nil =>
    intro s
    show true = true ↔ B ||| 0 = B
    rw [Nat.or_zero]
    exact ⟨fun _ => rfl, fun _ => rfl⟩
  | cons op ops ih =>
    intro s
    show ((if l2x0_is_cache_type_read op then
        decide (B ||| l2x0_derived_bits s.aux_ctrl = B) else true) &&
        l2x0_reads_within B (l2x0_step s op) ops) = true ↔
      B ||| ((if l2x0_is_cache_type_read op then l2x0_derived_bits s.aux_ctrl else 0) |||
        l2x0_read_bits (l2x0_step s op) ops) = B
    rw [or_or_eq_left_iff, Bool.and_eq_true, ih (l2x0_step s op)]
    cases hop : l2x0_is_cache_type_read op
    · rw [if_neg (by simp), if_neg (by simp), Nat.or_zero]
      exact ⟨fun h => ⟨rfl, h.2⟩, fun h => ⟨rfl, h.2⟩⟩
    · rw [if_pos rfl, if_pos rfl, decide_eq_true_iff]

/-! ## Theorems -/

/-- C1: on every device whose stored cache type is `B` (a freshly constructed one,
before or after its first reset, in particular), writing `A` to offset `0x104` and
then reading offset `0x004` returns `B | (cd << 18) | (cd << 6)` with
`cd = ((A & (7<<17)) >> 15) | ((A & (1<<16)) >> 16)` in 32-bit arithmetic; for
`A = 0x02020000` and `B = 0x1c100100` the value read is `0x1c100100`. -/
theorem c1_aux_write_then_cache_type_read :
    (∀ (s : l2x0_state) (A : Nat),
      (l2x0_priv_read (l2x0_priv_write s 0x104 A).state 0x004).value =
        s.cache_type
          ||| shl32 (((A &&& (7 <<< 17)) >>> 15) ||| ((A &&& (1 <<< 16)) >>> 16)) 18
          ||| shl32 (((A &&& (7 <<< 17)) >>> 15) ||| ((A &&& (1 <<< 16)) >>> 16)) 6) ∧
    (∀ (B A : Nat),
      (l2x0_priv_read (l2x0_priv_write (l2x0_construct B) 0x104 A).state 0x004).value =
        B ||| shl32 (((A &&& (7 <<< 17)) >>> 15) ||| ((A &&& (1 <<< 16)) >>> 16)) 18
          ||| shl32 (((A &&& (7 <<< 17)) >>> 15) ||| ((A &&& (1 <<< 16)) >>> 16)) 6) ∧
    (∀ (B A : Nat),
      (l2x0_priv_read (l2x0_priv_write (l2x0_init B) 0x104 A).state 0x004).value =
        B ||| shl32 (((A &&& (7 <<< 17)) >>> 15) ||| ((A &&& (1 <<< 16)) >>> 16)) 18
          ||| shl32 (((A &&& (7 <<< 17)) >>> 15) ||| ((A &&& (1 <<< 16)) >>> 16)) 6) ∧
    (l2x0_priv_read (l2x0_priv_write (l2x0_construct 0x1c100100) 0x104 0x02020000).state
        0x004).value = 0x1c100100 := by
  have key : ∀ (s : l2x0_state) (A : Nat),
      (l2x0_priv_read (l2x0_priv_write s 0x104 A).state 0x004).value =
        s.cache_type
          ||| shl32 (((A &&& (7 <<< 17)) >>> 15) ||| ((A &&& (1 <<< 16)) >>> 16)) 18
          ||| shl32 (((A &&& (7 <<< 17)) >>> 15) ||| ((A &&& (1 <<< 16)) >>> 16)) 6 := by
    intro s A
    rw [l2x0_read_cache_type _ _ (by decide)]
    have hw : (l2x0_priv_write s 0x104 A).state = { s with aux_ctrl := A } := by
      unfold l2x0_priv_write
      dsimp only
      rw [if_neg (by decide), if_neg (by decide), if_pos (by decide)]
    rw [hw]
    simp only [l2x0_derived_bits, l2x0_cache_data, Nat.or_assoc]
  refine ⟨key, fun B A => ?_, fun B A => ?_, by decide⟩
  · rw [key]; rfl
  · rw [key]; rfl

/-- C2, counterexample: on a device constructed with base type `0` (bits 18 to 20
clear), after `0x000E0000` is written to Aux Control the value read at `0x004` has
`0b100` in bits 18 to 20, not `0b111`. -/
theorem c2_counterexample :
    ¬ ∀ B : Nat, (B >>> 18) &&& 7 = 0 →
      ((l2x0_priv_read (l2x0_priv_write (l2x0_init B) 0x104 0x000E0000).state 0x004).value
        >>> 18) &&& 7 = 7 := by
  intro h
  exact absurd (h 0 (by decide)) (by decide)

/-- C2, as amended: bits 17 to 19 of Aux Control are or-ed into bits 20 to 22 of the
value read at `0x004`, and bit 16 of Aux Control into bit 18. With Aux Control
`0x000E0000` the value read has `0b111` in bits 20 to 22 for every stored type, and
its bits 18 to 20 are those of the stored type or-ed with `0b100`. -/
theorem c2_aux_bits_in_cache_type (s : l2x0_state) :
    ((l2x0_priv_read s 0x004).value >>> 20) &&& 7 =
        ((s.cache_type >>> 20) &&& 7) ||| ((s.aux_ctrl >>> 17) &&& 7) ∧
    ((l2x0_priv_read s 0x004).value >>> 18) &&& 1 =
        ((s.cache_type >>> 18) &&& 1) ||| ((s.aux_ctrl >>> 16) &&& 1) ∧
    ((l2x0_priv_read { s with aux_ctrl := 0x000E0000 } 0x004).value >>> 20) &&& 7 = 7 ∧
    ((l2x0_priv_read { s with aux_ctrl := 0x000E0000 } 0x004).value >>> 18) &&& 7 =
        ((s.cache_type >>> 18) &&& 7) ||| 4 := by
  have hway : ∀ t : l2x0_state, ((l2x0_priv_read t 0x004).value >>> 20) &&& 7 =
      ((t.cache_type >>> 20) &&& 7) ||| ((t.aux_ctrl >>> 17) &&& 7) := by
    intro t
    rw [l2x0_read_cache_type t 0x004 (by decide)]
    show ((t.cache_type ||| l2x0_derived_bits t.aux_ctrl) >>> 20) &&& 7 = _
    apply Nat.eq_of_testBit_eq
    intro i
    simp only [l2x0_derived_bits, l2x0_cache_data, shl32, Nat.testBit_and, Nat.testBit_or,
      Nat.testBit_shiftRight, Nat.testBit_mod_two_pow, testBit_seven, testBit_seven_shl,
      testBit_one_shl]
    simp only [Nat.testBit_shiftLeft, Nat.testBit_and, Nat.testBit_or,
      Nat.testBit_shiftRight, testBit_seven_shl, testBit_one_shl]
    by_cases h : i < 3
    · interval_cases i <;> simp [testBit_seven, testBit_one]
    · simp [h]
  refine ⟨hway s, ?_, ?_, ?_⟩
  · rw [l2x0_read_cache_type s 0x004 (by decide)]
    show ((s.cache_type ||| l2x0_derived_bits s.aux_ctrl) >>> 18) &&& 1 = _
    apply Nat.eq_of_testBit_eq
    intro i
    simp only [l2x0_derived_bits, l2x0_cache_data, shl32, Nat.testBit_and, Nat.testBit_or,
      Nat.testBit_shiftRight, Nat.testBit_mod_two_pow, testBit_one, testBit_seven_shl,
      testBit_one_shl]
    simp only [Nat.testBit_shiftLeft, Nat.testBit_and, Nat.testBit_or,
      Nat.testBit_shiftRight, testBit_seven_shl, testBit_one_shl]
    by_cases h : i = 0
    · subst h; simp [testBit_seven, testBit_one]
    · simp [h]
  · rw [hway]
    show ((s.cache_type >>> 20) &&& 7) ||| ((0x000E0000 >>> 17) &&& 7) = 7
    apply Nat.eq_of_testBit_eq
    intro i
    have h7 : ((0x000E0000 >>> 17) &&& 7 : Nat) = 7 := by decide
    rw [h7]
    simp only [Nat.testBit_or, Nat.testBit_and, testBit_seven]
    by_cases h : i < 3 <;> simp [h]
  · rw [l2x0_read_cache_type _ 0x004 (by decide)]
    show ((s.cache_type ||| l2x0_derived_bits 0x000E0000) >>> 18) &&& 7 = _
    have hd : l2x0_derived_bits 0x000E0000 = 0x700700 := by decide
    have hc : (0x700700 : Nat) = (7 <<< 20) ||| (7 <<< 8) := by decide
    have h4 : (4 : Nat) = 1 <<< 2 := by decide
    rw [hd, hc, h4]
    apply Nat.eq_of_testBit_eq
    intro i
    simp only [Nat.testBit_and, Nat.testBit_or, Nat.testBit_shiftRight, Nat.testBit_shiftLeft,
      testBit_seven, testBit_one]
    by_cases h : i < 3
    · interval_cases i <;> simp
    · simp [h]
      omega

/-- C3, counterexample: on the default device, after `0x000E0000` is written to Aux
Control a read of `0x004` changes the stored cache type. -/
theorem c3_counterexample :
    ¬ ∀ (s : l2x0_state) (o v : Nat),
      (l2x0_priv_read s o).state.cache_type = s.cache_type ∧
      (l2x0_priv_write s o v).state.cache_type = s.cache_type := by
  intro h
  exact absurd (h (l2x0_priv_write (l2x0_init 0x1c100100) 0x104 0x000E0000).state 0x004 0).1
    (by decide)

/-- C3, as amended: no write changes the stored cache type, no read at an offset
other than `0x004` (after masking) changes it, and a read of `0x004` ors the bits
derived from Aux Control into it. -/
theorem c3_cache_type_frame (s : l2x0_state) (o v : Nat) :
    (l2x0_priv_write s o v).state.cache_type = s.cache_type ∧
    (l2x0_priv_read s o).state.cache_type =
      if o &&& 0xfff = 0x4 then
        s.cache_type
          ||| (shl32 (((s.aux_ctrl &&& (7 <<< 17)) >>> 15) |||
                ((s.aux_ctrl &&& (1 <<< 16)) >>> 16)) 18
          ||| shl32 (((s.aux_ctrl &&& (7 <<< 17)) >>> 15) |||
                ((s.aux_ctrl &&& (1 <<< 16)) >>> 16)) 6)
      else s.cache_type := by
  refine ⟨l2x0_write_cache_type s o v, ?_⟩
  by_cases h : o &&& 0xfff = 0x4
  · rw [if_pos h, l2x0_read_cache_type s o h]
    simp only [l2x0_derived_bits, l2x0_cache_data]
  · rw [if_neg h, l2x0_read_state_of_ne s o h]

/-- C4, counterexample: the default device, after `0x000E0000` is written to Aux
Control, Cache Type is read and `0` is written to Aux Control, has Aux Control `0`
and returns `0x1c700700` at `0x004`, not its base type `0x1c100100`. -/
theorem c4_counterexample :
    ¬ ∀ (B : Nat) (ops : List l2x0_op),
      (l2x0_run (l2x0_init B) ops).aux_ctrl = 0 →
      (l2x0_priv_read (l2x0_run (l2x0_init B) ops) 0x004).value = B := by
  intro h
  exact absurd
    (h 0x1c100100 [.write 0x104 0x000E0000, .read 0x004, .write 0x104 0] (by decide))
    (by decide)

/-- C4, as amended: in every state in which Aux Control is `0`, reading `0x004`
returns the stored cache type and leaves the state as it is. In a state reached
from a constructed and reset device with base type `B` by any reads, writes and
resets and in which Aux Control is `0`, that value is `B` or-ed with the bits
derived at the earlier Cache Type reads; it is `B` exactly when every earlier Cache
Type read happened while the derived bits were already set in `B`, and so whenever
there was no earlier Cache Type read. -/
theorem c4_cache_type_read_aux_zero :
    (∀ s : l2x0_state, s.aux_ctrl = 0 →
      l2x0_priv_read s 0x004 = ⟨s.cache_type, s, none⟩) ∧
    (∀ (B : Nat) (ops : List l2x0_op),
      (∀ op ∈ ops, l2x0_is_cache_type_read op = false) →
      (l2x0_run (l2x0_init B) ops).aux_ctrl = 0 →
      l2x0_priv_read (l2x0_run (l2x0_init B) ops) 0x004 =
        ⟨B, l2x0_run (l2x0_init B) ops, none⟩) ∧
    (∀ (B : Nat) (ops : List l2x0_op),
      (l2x0_run (l2x0_init B) ops).aux_ctrl = 0 →
      l2x0_priv_read (l2x0_run (l2x0_init B) ops) 0x004 =
        ⟨B ||| l2x0_read_bits (l2x0_init B) ops, l2x0_run (l2x0_init B) ops, none⟩) ∧
    (∀ (B : Nat) (ops : List l2x0_op),
      (l2x0_run (l2x0_init B) ops).aux_ctrl = 0 →
      ((l2x0_priv_read (l2x0_run (l2x0_init B) ops) 0x004).value = B ↔
        l2x0_reads_within B (l2x0_init B) ops = true)) := by
  have h1 : ∀ s : l2x0_state, s.aux_ctrl = 0 →
      l2x0_priv_read s 0x004 = ⟨s.cache_type, s, none⟩ := by
    intro s h
    obtain ⟨ct, c, a, d, t, fs, fe⟩ := s
    simp only at h
    subst h
    rw [l2x0_read_cache_type _ 0x004 (by decide)]
    simp only [l2x0_derived_bits_zero, Nat.or_zero]
  have h3 : ∀ (B : Nat) (ops : List l2x0_op),
      (l2x0_run (l2x0_init B) ops).aux_ctrl = 0 →
      l2x0_priv_read (l2x0_run (l2x0_init B) ops) 0x004 =
        ⟨B ||| l2x0_read_bits (l2x0_init B) ops, l2x0_run (l2x0_init B) ops, none⟩ := by
    intro B ops haux
    rw [h1 _ haux, l2x0_run_cache_type_eq ops (l2x0_init B)]
    rfl
  refine ⟨h1, fun B ops hops haux => ?_, h3, fun B ops haux => ?_⟩
  · rw [h1 _ haux, l2x0_run_cache_type ops _ hops]
    rfl
  · rw [h3 B ops haux, l2x0_reads_within_iff]

/-- C4, witness: the default device after a write of `0` to Aux Control; after a
read of Control in between; after a Cache Type read made while Aux Control held
`0x02000000`; and after a Cache Type read made right after reset, while Aux Control
held `0x02020000`, whose derived bits `0x100100` are set in `0x1c100100`. -/
theorem c4_cache_type_read_aux_zero_witness :
    l2x0_priv_read (l2x0_priv_write (l2x0_init 0x1c100100) 0x104 0).state 0x004 =
      ⟨0x1c100100, (l2x0_priv_write (l2x0_init 0x1c100100) 0x104 0).state, none⟩ ∧
    l2x0_priv_read (l2x0_run (l2x0_init 0x1c100100) [.write 0x104 0, .read 0x100]) 0x004 =
      ⟨0x1c100100, l2x0_run (l2x0_init 0x1c100100) [.write 0x104 0, .read 0x100], none⟩ ∧
    l2x0_priv_read (l2x0_run (l2x0_init 0x1c100100)
        [.write 0x104 0x02000000, .read 0x004, .write 0x104 0]) 0x004 =
      ⟨0x1c100100 ||| l2x0_read_bits (l2x0_init 0x1c100100)
          [.write 0x104 0x02000000, .read 0x004, .write 0x104 0],
        l2x0_run (l2x0_init 0x1c100100)
          [.write 0x104 0x02000000, .read 0x004, .write 0x104 0], none⟩ ∧
    (l2x0_priv_read (l2x0_run (l2x0_init 0x1c100100)
        [.read 0x004, .write 0x104 0]) 0x004).value = 0x1c100100 ∧
    (l2x0_priv_read (l2x0_run (l2x0_init 0x1c100100)
        [.write 0x104 0x02000000, .read 0x004, .write 0x104 0]) 0x004).value =
      0x1c100100 :=
  ⟨c4_cache_type_read_aux_zero.1 (l2x0_priv_write (l2x0_init 0x1c100100) 0x104 0).state
      (by decide),
   c4_cache_type_read_aux_zero.2.1 0x1c100100 [.write 0x104 0, .read 0x100]
      (by decide) (by decide),
   c4_cache_type_read_aux_zero.2.2.1 0x1c100100
      [.write 0x104 0x02000000, .read 0x004, .write 0x104 0] (by decide),
   (c4_cache_type_read_aux_zero.2.2.2 0x1c100100 [.read 0x004, .write 0x104 0]
      (by decide)).mpr (by decide),
   (c4_cache_type_read_aux_zero.2.2.2 0x1c100100
      [.write 0x104 0x02000000, .read 0x004, .write 0x104 0] (by decide)).mpr (by decide)⟩

/-- C5: two reads of `0x004` in a row return the same value, and the state after
the second read is the state after the first. -/
theorem c5_cache_type_read_idempotent (s : l2x0_state) :
    (l2x0_priv_read (l2x0_priv_read s 0x004).state 0x004).value =
      (l2x0_priv_read s 0x004).value ∧
    (l2x0_priv_read (l2x0_priv_read s 0x004).state 0x004).state =
      (l2x0_priv_read s 0x004).state := by
  rw [l2x0_read_cache_type s 0x004 (by decide), l2x0_read_cache_type _ 0x004 (by decide)]
  simp only [Nat.or_assoc, Nat.or_self, and_self]

/-- C6: at every offset whose 12-bit value lies in `0x730..0x7FF` a read returns
`0` and leaves the state as it is, and a write of any value leaves the state as it
is; neither prints a message. -/
theorem c6_ignored_range (s : l2x0_state) (o v : Nat)
    (hlo : 0x730 ≤ o &&& 0xfff) (hhi : o &&& 0xfff ≤ 0x7FF) :
    l2x0_priv_read s o = ⟨0, s, none⟩ ∧ l2x0_priv_write s o v = ⟨s, none⟩ := by
  have h : 0x730 ≤ o &&& 0xfff ∧ o &&& 0xfff < 0x800 := ⟨hlo, by omega⟩
  constructor
  · unfold l2x0_priv_read
    dsimp only
    rw [if_pos h]
  · unfold l2x0_priv_write
    dsimp only
    rw [if_pos h]

/-- C6, witness: offset `0x17F0`, an alias of `0x7F0`, on the default device. -/
theorem c6_ignored_range_witness :
    l2x0_priv_read (l2x0_init 0x1c100100) 0x17F0 = ⟨0, l2x0_init 0x1c100100, none⟩ ∧
    l2x0_priv_write (l2x0_init 0x1c100100) 0x17F0 0xffffffff =
      ⟨l2x0_init 0x1c100100, none⟩ :=
  c6_ignored_range (l2x0_init 0x1c100100) 0x17F0 0xffffffff (by decide) (by decide)

/-- C7: both access functions return on every input. At an offset whose 12-bit
value is none of `0x000, 0x004, 0x100, 0x104, 0x108, 0x10C, 0xC00, 0xC04, 0xF40,
0xF60, 0xF80` and lies outside `0x730..0x7FF`, a read returns `0` and a write stores
nothing, each printing its bad-offset message with the masked offset and leaving the
state as it is. At `0xF40`, `0xF60` and `0xF80` a read returns `0` and a write is
dropped, without a message. -/
theorem c7_soft_errors (s : l2x0_state) (o v : Nat) :
    ((o &&& 0xfff) ∉ [0x000, 0x004, 0x100, 0x104, 0x108, 0x10C, 0xC00, 0xC04,
        0xF40, 0xF60, 0xF80] →
      ¬ (0x730 ≤ o &&& 0xfff ∧ o &&& 0xfff ≤ 0x7FF) →
      l2x0_priv_read s o =
        ⟨0, s, some ⟨"l2x0_priv_read: Bad offset %x\n", [o &&& 0xfff]⟩⟩ ∧
      l2x0_priv_write s o v =
        ⟨s, some ⟨"l2x0_priv_write: Bad offset %x\n", [o &&& 0xfff]⟩⟩) ∧
    ((o &&& 0xfff) ∈ [0xF40, 0xF60, 0xF80] →
      l2x0_priv_read s o = ⟨0, s, none⟩ ∧ l2x0_priv_write s o v = ⟨s, none⟩) := by
  constructor
  · intro hmem hrange
    simp only [List.mem_cons, List.mem_singleton, List.not_mem_nil, or_false, not_or] at hmem
    obtain ⟨h0, h4, h100, h104, h108, h10C, hC00, hC04, hF40, hF60, hF80⟩ := hmem
    have hr : ¬ (0x730 ≤ o &&& 0xfff ∧ o &&& 0xfff < 0x800) := by omega
    constructor
    · unfold l2x0_priv_read
      dsimp only
      rw [if_neg hr, if_neg h0, if_neg h4, if_neg h100, if_neg h104, if_neg h108,
        if_neg h10C, if_neg hC00, if_neg hC04, if_neg hF40, if_neg hF60, if_neg hF80,
        masked_offset_mod]
    · unfold l2x0_priv_write
      dsimp only
      rw [if_neg hr, if_neg h100, if_neg h104, if_neg h108,
        if_neg h10C, if_neg hC00, if_neg hC04, if_neg hF40, if_neg hF60, if_neg hF80,
        masked_offset_mod]
  · intro hmem
    simp only [List.mem_cons, List.mem_singleton, List.not_mem_nil, or_false] at hmem
    constructor
    · unfold l2x0_priv_read
      dsimp only
      rcases hmem with h | h | h <;> rw [h] <;> rfl
    · unfold l2x0_priv_write
      dsimp only
      rcases hmem with h | h | h <;> rw [h] <;> rfl

/-- C7, witness: the unknown offset `0x200` and the sync register `0xF40` on the
default device. -/
theorem c7_soft_errors_witness :
    (l2x0_priv_read (l2x0_init 0x1c100100) 0x200 =
        ⟨0, l2x0_init 0x1c100100, some ⟨"l2x0_priv_read: Bad offset %x\n", [0x200]⟩⟩ ∧
      l2x0_priv_write (l2x0_init 0x1c100100) 0x200 5 =
        ⟨l2x0_init 0x1c100100, some ⟨"l2x0_priv_write: Bad offset %x\n", [0x200]⟩⟩) ∧
    (l2x0_priv_read (l2x0_init 0x1c100100) 0xF40 = ⟨0, l2x0_init 0x1c100100, none⟩ ∧
      l2x0_priv_write (l2x0_init 0x1c100100) 0xF40 5 = ⟨l2x0_init 0x1c100100, none⟩) :=
  ⟨(c7_soft_errors (l2x0_init 0x1c100100) 0x200 5).1 (by decide) (by decide),
   (c7_soft_errors (l2x0_init 0x1c100100) 0xF40 5).2 (by decide)⟩

/-- C8: a write of `v` to Aux Control, Tag RAM Control, Data RAM Control, Address
Filter Start or Address Filter End of the cache controller, or to DMA Control of
the flash controller, stores `v` in that register alone and a read of the same
offset then returns `v`; a write of `v` to Control stores `v & 1` in Control alone
and a read of Control then returns `v & 1`. -/
theorem c8_read_after_write (s : l2x0_state) (f : tegra_sflash_state) (v : Nat) :
    (l2x0_priv_write s 0x104 v = ⟨{ s with aux_ctrl := v }, none⟩ ∧
      (l2x0_priv_read (l2x0_priv_write s 0x104 v).state 0x104).value = v) ∧
    (l2x0_priv_write s 0x108 v = ⟨{ s with tag_ctrl := v }, none⟩ ∧
      (l2x0_priv_read (l2x0_priv_write s 0x108 v).state 0x108).value = v) ∧
    (l2x0_priv_write s 0x10C v = ⟨{ s with data_ctrl := v }, none⟩ ∧
      (l2x0_priv_read (l2x0_priv_write s 0x10C v).state 0x10C).value = v) ∧
    (l2x0_priv_write s 0xC00 v = ⟨{ s with filter_start := v }, none⟩ ∧
      (l2x0_priv_read (l2x0_priv_write s 0xC00 v).state 0xC00).value = v) ∧
    (l2x0_priv_write s 0xC04 v = ⟨{ s with filter_end := v }, none⟩ ∧
      (l2x0_priv_read (l2x0_priv_write s 0xC04 v).state 0xC04).value = v) ∧
    (l2x0_priv_write s 0x100 v = ⟨{ s with ctrl := v &&& 1 }, none⟩ ∧
      (l2x0_priv_read (l2x0_priv_write s 0x100 v).state 0x100).value = v &&& 1) ∧
    ((tegra_sflash_write f 0x0c v).outcome = .ok { f with dma_ctl := v } ∧
      (tegra_sflash_read { f with dma_ctl := v } 0x0c).outcome =
        .ok (v, { f with dma_ctl := v })) := by
  refine ⟨⟨rfl, rfl⟩, ⟨rfl, rfl⟩, ⟨rfl, rfl⟩, ⟨rfl, rfl⟩, ⟨rfl, rfl⟩, ⟨rfl, rfl⟩, ⟨rfl, rfl⟩⟩

/-- C9: whatever the state before, `l2x0_priv_reset` sets Control to `0`, Aux
Control to `0x02020000`, Tag RAM Control, Data RAM Control and both address filters
to `0` and keeps the stored cache type; `tegra_sflash_reset` sets Command to
`0x10000420`, Status to `0x02800000`, Rx Compare and DMA Control to `0`; a second
reset changes nothing. -/
theorem c9_reset (s : l2x0_state) (f : tegra_sflash_state) :
    l2x0_priv_reset s =
      { cache_type := s.cache_type, ctrl := 0, aux_ctrl := 0x02020000, data_ctrl := 0,
        tag_ctrl := 0, filter_start := 0, filter_end := 0 } ∧
    l2x0_priv_reset (l2x0_priv_reset s) = l2x0_priv_reset s ∧
    tegra_sflash_reset f =
      { command := 0x10000420, status := 0x02800000, rx_cmp := 0, dma_ctl := 0 } ∧
    tegra_sflash_reset (tegra_sflash_reset f) = tegra_sflash_reset f :=
  ⟨rfl, rfl, rfl, rfl⟩

/-- Loading the saved field list of a device `s` into a constructed and reset
instance with base type `B` gives `s` with its stored cache type replaced by `B`. -/
theorem l2x0_snapshot_restores_registers (s : l2x0_state) (B : Nat) :
    l2x0_deserialize (l2x0_init B) (vmstate_l2x0 s) = some { s with cache_type := B } :=
  rfl

/-- C10, failing input: the default device (base type `0x1c100100`) after a write of
`0x000E0000` to Aux Control, a read of Cache Type and a write of `0x02020000` to Aux
Control. Its saved field list, loaded into a constructed and reset instance with
the same base type, gives the freshly reset device, which returns `0x1c100100` at
`0x004`, while the original returns `0x1c700700`. -/
theorem c10_snapshot_cache_type_differs :
    l2x0_deserialize (l2x0_init 0x1c100100)
        (vmstate_l2x0 (l2x0_run (l2x0_init 0x1c100100)
          [.write 0x104 0x000E0000, .read 0x004, .write 0x104 0x02020000])) =
      some (l2x0_init 0x1c100100) ∧
    (l2x0_priv_read (l2x0_run (l2x0_init 0x1c100100)
        [.write 0x104 0x000E0000, .read 0x004, .write 0x104 0x02020000]) 0x004).value =
      0x1c700700 ∧
    (l2x0_priv_read (l2x0_init 0x1c100100) 0x004).value = 0x1c100100 := by
  decide

/-! ## Helper lemmas for the flash controller and the stored cache type -/

/-- Bit `i` of a 32-bit complement. -/
theorem testBit_not32 (x i : Nat) :
    Nat.testBit (not32 x) i = (decide (i < 32) && !Nat.testBit x i) := by
  have hlt : x % 2 ^ 32 < 2 ^ 32 := Nat.mod_lt _ (by decide)
  have h : not32 x = 2 ^ 32 - (x % 2 ^ 32 + 1) := by
    unfold not32
    omega
  rw [h, Nat.testBit_two_pow_sub_succ hlt, Nat.testBit_mod_two_pow]
  by_cases hi : i < 32 <;> simp [hi]

/-- The word that `tegra_sflash_write` (case `0x04`) leaves in `status`. -/
theorem sflash_status_write_value (v : Nat) :
    (v &&& not32 (SFLASH_STAT_RO ||| SFLASH_STAT_COW)) &&& not32 (v &&& SFLASH_STAT_COW) =
      v &&& 0x303FFFFF := by
  have hK : not32 (SFLASH_STAT_RO ||| SFLASH_STAT_COW) = 0x303FFFFF := by decide
  rw [hK]
  apply Nat.eq_of_testBit_eq
  intro i
  have hKC : (Nat.testBit 0x303FFFFF i && Nat.testBit SFLASH_STAT_COW i) = false := by
    rw [← Nat.testBit_and]
    have h0 : (0x303FFFFF &&& SFLASH_STAT_COW : Nat) = 0 := by decide
    rw [h0, Nat.zero_testBit]
  have hK32 : Nat.testBit 0x303FFFFF i = true → i < 32 := by
    intro hb
    by_contra hge
    have hlt : (0x303FFFFF : Nat) < 2 ^ i :=
      Nat.lt_of_lt_of_le (by decide : (0x303FFFFF : Nat) < 2 ^ 32)
        (Nat.pow_le_pow_right (by decide) (by omega))
    rw [Nat.testBit_lt_two_pow hlt] at hb
    exact Bool.false_ne_true hb
  simp only [Nat.testBit_and, testBit_not32]
  cases hb : Nat.testBit 0x303FFFFF i
  · simp
  · have hi := hK32 hb
    rw [hb] at hKC
    simp only [Bool.true_and] at hKC
    simp [hi, hKC]

/-- A write to the status register of the flash controller stores the written
word masked with `0x303FFFFF`, whatever the register held before. -/
theorem tegra_sflash_write_status (s : tegra_sflash_state) (v : Nat) :
    (tegra_sflash_write s 0x04 v).outcome = .ok { s with status := v &&& 0x303FFFFF } := by
  rw [← sflash_status_write_value]
  rfl

/-- The derived bits lie inside the mask `0x00740740`. -/
theorem l2x0_derived_bits_mask (aux : Nat) :
    l2x0_derived_bits aux &&& 0x00740740 = l2x0_derived_bits aux := by
  have hM : (0x00740740 : Nat) = (7 <<< 20) ||| (1 <<< 18) ||| (7 <<< 8) ||| (1 <<< 6) := by
    decide
  rw [hM]
  apply Nat.eq_of_testBit_eq
  intro i
  simp only [l2x0_derived_bits, l2x0_cache_data, shl32, Nat.testBit_and, Nat.testBit_or,
    Nat.testBit_shiftRight, Nat.testBit_mod_two_pow, testBit_seven_shl, testBit_one_shl]
  simp only [Nat.testBit_shiftLeft, Nat.testBit_and, Nat.testBit_or,
    Nat.testBit_shiftRight, testBit_seven_shl, testBit_one_shl, testBit_seven, testBit_one]
  by_cases h : i < 32
  · interval_cases i <;> simp
  · simp [h]

/-- One access ors bits of the mask `0x00740740` into the stored cache type. -/
theorem l2x0_step_cache_type_or (s : l2x0_state) (op : l2x0_op) :
    ∃ d, (l2x0_step s op).cache_type = s.cache_type ||| d ∧ d &&& 0x00740740 = d := by
  cases op with
  | read o =>
    by_cases ho : o &&& 0xfff = 0x4
    · refine ⟨l2x0_derived_bits s.aux_ctrl, ?_, l2x0_derived_bits_mask _⟩
      show (l2x0_priv_read s o).state.cache_type = _
      rw [l2x0_read_cache_type s o ho]
    · refine ⟨0, ?_, Nat.zero_and _⟩
      show (l2x0_priv_read s o).state.cache_type = _
      rw [l2x0_read_state_of_ne s o ho, Nat.or_zero]
  | write o v =>
    exact ⟨0, by rw [Nat.or_zero]; exact l2x0_write_cache_type s o v, Nat.zero_and _⟩
  | reset => exact ⟨0, by rw [Nat.or_zero]; rfl, Nat.zero_and _⟩

/-- A run ors bits of the mask `0x00740740` into the stored cache type. -/
theorem l2x0_run_cache_type_or (ops : List l2x0_op) :
    ∀ s : l2x0_state,
      ∃ d, (l2x0_run s ops).cache_type = s.cache_type ||| d ∧ d &&& 0x00740740 = d := by
  induction ops with
  | nil => intro s; exact ⟨0, by rw [Nat.or_zero]; rfl, Nat.zero_and _⟩
  | cons op ops ih =>
    intro s
    obtain ⟨d1, h1, m1⟩ := l2x0_step_cache_type_or s op
    obtain ⟨d2, h2, m2⟩ := ih (l2x0_step s op)
    refine ⟨d1 ||| d2, ?_, ?_⟩
    · show (l2x0_run (l2x0_step s op) ops).cache_type = _
      rw [h2, h1, Nat.or_assoc]
    · rw [Nat.and_comm, Nat.and_or_distrib_left, Nat.and_comm _ d1, Nat.and_comm _ d2, m1, m2]

/-- Or-ing in bits keeps every bit that was set. -/
theorem and_or_self_left (a d : Nat) : a &&& (a ||| d) = a := by
  apply Nat.eq_of_testBit_eq
  intro i
  simp only [Nat.testBit_and, Nat.testBit_or]
  cases Nat.testBit a i <;> simp

/-- Or-ing in bits of a mask changes nothing outside the mask. -/
theorem or_and_not32_mask (a d m : Nat) (h : d &&& m = d) :
    (a ||| d) &&& not32 m = a &&& not32 m := by
  apply Nat.eq_of_testBit_eq
  intro i
  have hb : (Nat.testBit d i && Nat.testBit m i) = Nat.testBit d i := by
    rw [← Nat.testBit_and, h]
  simp only [Nat.testBit_and, Nat.testBit_or, testBit_not32]
  cases hd : Nat.testBit d i <;> cases hm : Nat.testBit m i <;> simp_all

/-- A read of the flash controller at an offset outside its nine cases. -/
theorem sflash_read_bad_offset (s : tegra_sflash_state) (o : Nat)
    (h : o ∉ [0x00, 0x04, 0x08, 0x0c, 0x10, 0x1c, 0x20, 0x100, 0x180]) :
    (tegra_sflash_read s o).outcome =
      .error ⟨⟨"tegra_sflash_read: Bad offset %x\n", [o % 2 ^ 32]⟩, s⟩ := by
  simp only [List.mem_cons, List.mem_singleton, List.not_mem_nil, or_false, not_or] at h
  obtain ⟨h0, h4, h8, hc, h10, h1c, h20, h100, h180⟩ := h
  unfold tegra_sflash_read
  dsimp only
  rw [if_neg h0, if_neg h4, if_neg h8, if_neg hc, if_neg h10, if_neg h1c, if_neg h20,
    if_neg h100, if_neg h180]

/-- A write of the flash controller at an offset outside its nine cases. -/
theorem sflash_write_bad_offset (s : tegra_sflash_state) (o v : Nat)
    (h : o ∉ [0x00, 0x04, 0x08, 0x0c, 0x10, 0x1c, 0x20, 0x100, 0x180]) :
    (tegra_sflash_write s o v).outcome =
      .error ⟨⟨"tegra_sflash_write: Bad offset %x\n", [o % 2 ^ 32]⟩, s⟩ := by
  simp only [List.mem_cons, List.mem_singleton, List.not_mem_nil, or_false, not_or] at h
  obtain ⟨h0, h4, h8, hc, h10, h1c, h20, h100, h180⟩ := h
  unfold tegra_sflash_write
  dsimp only
  rw [if_neg h0, if_neg h4, if_neg h8, if_neg hc, if_neg h10, if_neg h1c, if_neg h20,
    if_neg h100, if_neg h180]

/-- The three kinds of outcome of a read of the flash controller. -/
theorem sflash_read_cases (s : tegra_sflash_state) (o : Nat) :
    (o ∈ [0x00, 0x04, 0x08, 0x0c, 0x1c, 0x20, 0x180] ∧
      ∃ r, (tegra_sflash_read s o).outcome = .ok r) ∨
    (o ∈ [0x10, 0x100] ∧ (tegra_sflash_read s o).outcome =
      .error ⟨⟨"tegra_sflash_read: Write only register\n", []⟩, s⟩) ∨
    (o ∉ [0x00, 0x04, 0x08, 0x0c, 0x10, 0x1c, 0x20, 0x100, 0x180] ∧
      (tegra_sflash_read s o).outcome =
        .error ⟨⟨"tegra_sflash_read: Bad offset %x\n", [o % 2 ^ 32]⟩, s⟩) := by
  by_cases hmem : o ∈ [0x00, 0x04, 0x08, 0x0c, 0x10, 0x1c, 0x20, 0x100, 0x180]
  · simp only [List.mem_cons, List.mem_singleton, List.not_mem_nil, or_false] at hmem
    rcases hmem with h | h | h | h | h | h | h | h | h <;> subst h
    · exact Or.inl ⟨by decide, _, rfl⟩
    · exact Or.inl ⟨by decide, _, rfl⟩
    · exact Or.inl ⟨by decide, _, rfl⟩
    · exact Or.inl ⟨by decide, _, rfl⟩
    · exact Or.inr (Or.inl ⟨by decide, rfl⟩)
    · exact Or.inl ⟨by decide, _, rfl⟩
    · exact Or.inl ⟨by decide, _, rfl⟩
    · exact Or.inr (Or.inl ⟨by decide, rfl⟩)
    · exact Or.inl ⟨by decide, _, rfl⟩
  · exact Or.inr (Or.inr ⟨hmem, sflash_read_bad_offset s o hmem⟩)

/-- The three kinds of outcome of a write of the flash controller. -/
theorem sflash_write_cases (s : tegra_sflash_state) (o v : Nat) :
    (o ∈ [0x00, 0x04, 0x08, 0x0c, 0x10, 0x1c, 0x100] ∧
      ∃ r, (tegra_sflash_write s o v).outcome = .ok r) ∨
    (o ∈ [0x20, 0x180] ∧ (tegra_sflash_write s o v).outcome =
      .error ⟨⟨"tegra_sflash_read: Read only register\n", []⟩, s⟩) ∨
    (o ∉ [0x00, 0x04, 0x08, 0x0c, 0x10, 0x1c, 0x20, 0x100, 0x180] ∧
      (tegra_sflash_write s o v).outcome =
        .error ⟨⟨"tegra_sflash_write: Bad offset %x\n", [o % 2 ^ 32]⟩, s⟩) := by
  by_cases hmem : o ∈ [0x00, 0x04, 0x08, 0x0c, 0x10, 0x1c, 0x20, 0x100, 0x180]
  · simp only [List.mem_cons, List.mem_singleton, List.not_mem_nil, or_false] at hmem
    rcases hmem with h | h | h | h | h | h | h | h | h <;> subst h
    · refine Or.inl ⟨by decide, ?_⟩
      unfold tegra_sflash_write
      dsimp only
      rw [if_pos rfl]
      by_cases hg : v &&& 0x40000000 ≠ 0
      · rw [if_pos hg]; exact ⟨_, rfl⟩
      · rw [if_neg hg]; exact ⟨_, rfl⟩
    · exact Or.inl ⟨by decide, _, rfl⟩
    · exact Or.inl ⟨by decide, _, rfl⟩
    · exact Or.inl ⟨by decide, _, rfl⟩
    · exact Or.inl ⟨by decide, _, rfl⟩
    · exact Or.inl ⟨by decide, _, rfl⟩
    · exact Or.inr (Or.inl ⟨by decide, rfl⟩)
    · exact Or.inl ⟨by decide, _, rfl⟩
    · exact Or.inr (Or.inl ⟨by decide, rfl⟩)
  · exact Or.inr (Or.inr ⟨hmem, sflash_write_bad_offset s o v hmem⟩)

/-! ## Theorems on the flash controller and the stored cache type -/

/-- C11: for every state of the flash controller, loading its saved field list
(command, status, rx_cmp, dma_ctl) into a freshly reset instance gives a device with
the same four registers, on which every read and every write behaves as on the
original. -/
theorem c11_sflash_snapshot_round_trip (s s0 : tegra_sflash_state) :
    ∃ r, tegra_sflash_deserialize (tegra_sflash_reset s0) (tegra_sflash_vmstate s) = some r ∧
      r.command = s.command ∧ r.status = s.status ∧ r.rx_cmp = s.rx_cmp ∧
      r.dma_ctl = s.dma_ctl ∧ r = s ∧
      ∀ o v : Nat, tegra_sflash_read r o = tegra_sflash_read s o ∧
        tegra_sflash_write r o v = tegra_sflash_write s o v :=
  ⟨s, rfl, rfl, rfl, rfl, rfl, rfl, fun _ _ => ⟨rfl, rfl⟩⟩

/-- C12: a write of `v` to offset `0x00` stores `v & 0x1c2dffff` in Command, which a
read of `0x00` then returns and whose bit 30 is clear; it keeps Rx Compare and DMA
Control; when `v & 0x40000000` is not zero, that is when bit 30 of `v` is set, it
sets bit 30 of Status and keeps the other bits of Status, and otherwise it keeps
Status. With `v = 0x40000000` on the reset device Status reads `0x42800000`. -/
theorem c12_command_write (s : tegra_sflash_state) (v : Nat) :
    (∃ t, (tegra_sflash_write s 0x00 v).outcome = .ok t ∧
      t.command = v &&& 0x1c2dffff ∧
      t.rx_cmp = s.rx_cmp ∧ t.dma_ctl = s.dma_ctl ∧
      t.status = (if v &&& 0x40000000 ≠ 0 then s.status ||| 0x40000000 else s.status) ∧
      (tegra_sflash_read t 0x00).outcome = .ok (v &&& 0x1c2dffff, t) ∧
      (tegra_sflash_read t 0x04).outcome = .ok (t.status, t)) ∧
    (v &&& 0x1c2dffff) &&& 0x40000000 = 0 ∧
    (v &&& 0x40000000 ≠ 0 ↔ Nat.testBit v 30 = true) ∧
    (∀ i, Nat.testBit (s.status ||| 0x40000000) i =
      (Nat.testBit s.status i || decide (i = 30))) ∧
    (∃ t, (tegra_sflash_write tegra_sflash_init 0x00 0x40000000).outcome = .ok t ∧
      (tegra_sflash_read t 0x04).outcome = .ok (0x42800000, t)) := by
  have h30 : (0x40000000 : Nat) = 2 ^ 30 := by decide
  refine ⟨?_, ?_, ?_, ?_, ?_⟩
  · unfold tegra_sflash_write
    dsimp only
    rw [if_pos rfl]
    by_cases hg : v &&& 0x40000000 ≠ 0
    · rw [if_pos hg, if_pos hg]
      exact ⟨_, rfl, rfl, rfl, rfl, rfl, rfl, rfl⟩
    · rw [if_neg hg, if_neg hg]
      exact ⟨_, rfl, rfl, rfl, rfl, rfl, rfl, rfl⟩
  · rw [Nat.and_assoc]
    have h0 : (0x1c2dffff &&& 0x40000000 : Nat) = 0 := by decide
    rw [h0, Nat.and_zero]
  · rw [h30]
    constructor
    · intro hne
      by_contra hb
      apply hne
      apply Nat.eq_of_testBit_eq
      intro i
      rw [Nat.testBit_and, Nat.testBit_two_pow, Nat.zero_testBit]
      by_cases hi : 30 = i
      · subst hi; simp [hb]
      · simp [hi]
    · intro hb hz
      have h := congrArg (fun x => Nat.testBit x 30) hz
      simp only [Nat.testBit_and, Nat.testBit_two_pow, Nat.zero_testBit, hb] at h
      simp at h
  · intro i
    rw [h30, Nat.testBit_or, Nat.testBit_two_pow]
    by_cases hi : 30 = i
    · subst hi; simp
    · have hi' : ¬ i = 30 := fun h => hi h.symm
      simp [hi, hi']
  · exact ⟨_, rfl, rfl⟩

/-- C13, failing input: the reset flash controller holds `0x02800000` in the
read-only bits of Status; after a write of `0` to offset `0x04` Status is `0` and
those bits are clear. -/
theorem c13_status_read_only_bits_cleared :
    tegra_sflash_init.status &&& SFLASH_STAT_RO = 0x02800000 ∧
    (tegra_sflash_write tegra_sflash_init 0x04 0).outcome =
      .ok { tegra_sflash_init with status := 0 } ∧
    (0 : Nat) &&& SFLASH_STAT_RO = 0 :=
  ⟨by decide, rfl, by decide⟩

/-- C14, failing input: after a Go command Status is `0x42800000`, with the
clear-on-write bit 30 set; a write of `0x04000000` to offset `0x04`, whose bit 30 is
clear, leaves Status `0`, so bit 30 is cleared as well. -/
theorem c14_status_write_clears_other_cow_bits :
    (tegra_sflash_write tegra_sflash_init 0x00 0x40000000).outcome =
      .ok { tegra_sflash_init with command := 0, status := 0x42800000 } ∧
    (0x04000000 : Nat) &&& 0x40000000 = 0 ∧
    (tegra_sflash_write { tegra_sflash_init with command := 0, status := 0x42800000 }
        0x04 0x04000000).outcome =
      .ok { tegra_sflash_init with command := 0, status := 0 } :=
  ⟨rfl, by decide, rfl⟩

/-- C15, failing input: after a Go command Status is `0x42800000`, with the
clear-on-write bit 30 (Ready) set; a write of `0` to offset `0x04` leaves Status
`0`, so the bit is cleared by writing `0` to it. -/
theorem c15_status_write_zero_clears_ready :
    (tegra_sflash_write tegra_sflash_init 0x00 0x40000000).outcome =
      .ok { tegra_sflash_init with command := 0, status := 0x42800000 } ∧
    (0x42800000 : Nat) &&& SFLASH_STAT_COW = 0x40000000 ∧
    (tegra_sflash_write { tegra_sflash_init with command := 0, status := 0x42800000 }
        0x04 0).outcome =
      .ok { tegra_sflash_init with command := 0, status := 0 } :=
  ⟨rfl, by decide, rfl⟩

/-- C16: a write of `v` to offset `0x08` stores `v & 0x1ffff` in Rx Compare; a read
of `0x08` returns the stored word or-ed with `0x40A00000` (bits 23, 21 and 30),
stores that word in Rx Compare and changes no other register; a second read returns
the same word and leaves the state as the first read left it. -/
theorem c16_rx_compare (s : tegra_sflash_state) (v : Nat) :
    (tegra_sflash_write s 0x08 v).outcome = .ok { s with rx_cmp := v &&& 0x1ffff } ∧
    (tegra_sflash_read s 0x08).outcome =
      .ok (s.rx_cmp ||| 0x40A00000, { s with rx_cmp := s.rx_cmp ||| 0x40A00000 }) ∧
    (tegra_sflash_read { s with rx_cmp := s.rx_cmp ||| 0x40A00000 } 0x08).outcome =
      .ok (s.rx_cmp ||| 0x40A00000, { s with rx_cmp := s.rx_cmp ||| 0x40A00000 }) ∧
    (0x40A00000 : Nat) = 2 ^ 23 ||| 2 ^ 21 ||| 2 ^ 30 := by
  have hm : ∀ x : Nat, x ||| 0x00800000 ||| 0x00200000 ||| 0x40000000 = x ||| 0x40A00000 := by
    intro x
    rw [Nat.or_assoc, Nat.or_assoc]
    rfl
  have hr : ∀ t : tegra_sflash_state, (tegra_sflash_read t 0x08).outcome =
      .ok (t.rx_cmp ||| 0x40A00000, { t with rx_cmp := t.rx_cmp ||| 0x40A00000 }) := by
    intro t
    rw [← hm]
    rfl
  refine ⟨rfl, hr s, ?_, by decide⟩
  rw [hr]
  have hi : s.rx_cmp ||| 0x40A00000 ||| 0x40A00000 = s.rx_cmp ||| 0x40A00000 := by
    rw [Nat.or_assoc, Nat.or_self]
  simp only [hi]

/-- C17: a read of the flash controller ends in `hw_error` exactly at the offsets
other than `0x00, 0x04, 0x08, 0x0C, 0x1C, 0x20, 0x180`, and a write exactly at the
offsets other than `0x00, 0x04, 0x08, 0x0C, 0x10, 0x1C, 0x100`; at the call of
`hw_error` the registers are those before the access. -/
theorem c17_fatal_offsets (s : tegra_sflash_state) (o v : Nat) :
    ((∃ f, (tegra_sflash_read s o).outcome = .error f) ↔
      o ∉ [0x00, 0x04, 0x08, 0x0C, 0x1C, 0x20, 0x180]) ∧
    ((∃ f, (tegra_sflash_write s o v).outcome = .error f) ↔
      o ∉ [0x00, 0x04, 0x08, 0x0C, 0x10, 0x1C, 0x100]) ∧
    (∀ f, (tegra_sflash_read s o).outcome = .error f → f.state = s) ∧
    (∀ f, (tegra_sflash_write s o v).outcome = .error f → f.state = s) := by
  refine ⟨?_, ?_, ?_, ?_⟩
  · rcases sflash_read_cases s o with ⟨hm, r, hr⟩ | ⟨hm, he⟩ | ⟨hm, he⟩
    · constructor
      · rintro ⟨f, hf⟩
        rw [hr] at hf
        cases hf
      · intro hn
        exact absurd hm hn
    · constructor
      · intro _
        simp only [List.mem_cons, List.mem_singleton, List.not_mem_nil, or_false] at hm
        rcases hm with h | h <;> subst h <;> decide
      · intro _
        exact ⟨_, he⟩
    · constructor
      · intro _ hin
        apply hm
        simp only [List.mem_cons, List.mem_singleton, List.not_mem_nil, or_false] at hin ⊢
        omega
      · intro _
        exact ⟨_, he⟩
  · rcases sflash_write_cases s o v with ⟨hm, r, hr⟩ | ⟨hm, he⟩ | ⟨hm, he⟩
    · constructor
      · rintro ⟨f, hf⟩
        rw [hr] at hf
        cases hf
      · intro hn
        exact absurd hm hn
    · constructor
      · intro _
        simp only [List.mem_cons, List.mem_singleton, List.not_mem_nil, or_false] at hm
        rcases hm with h | h <;> subst h <;> decide
      · intro _
        exact ⟨_, he⟩
    · constructor
      · intro _ hin
        apply hm
        simp only [List.mem_cons, List.mem_singleton, List.not_mem_nil, or_false] at hin ⊢
        omega
      · intro _
        exact ⟨_, he⟩
  · intro f hf
    rcases sflash_read_cases s o with ⟨_, r, hr⟩ | ⟨_, he⟩ | ⟨_, he⟩
    · rw [hr] at hf
      cases hf
    · rw [he] at hf
      cases hf
      rfl
    · rw [he] at hf
      cases hf
      rfl
  · intro f hf
    rcases sflash_write_cases s o v with ⟨_, r, hr⟩ | ⟨_, he⟩ | ⟨_, he⟩
    · rw [hr] at hf
      cases hf
    · rw [he] at hf
      cases hf
      rfl
    · rw [he] at hf
      cases hf
      rfl

/-- C17, witness: on the reset device a read of `0x10` and a write of `0x20` end in
`hw_error` with the registers as they were. -/
theorem c17_fatal_offsets_witness :
    (∃ f, (tegra_sflash_read tegra_sflash_init 0x10).outcome = .error f) ∧
    (∃ f, (tegra_sflash_write tegra_sflash_init 0x20 7).outcome = .error f) ∧
    (⟨⟨"tegra_sflash_read: Write only register\n", []⟩, tegra_sflash_init⟩ :
      sflash_fatal).state = tegra_sflash_init ∧
    (⟨⟨"tegra_sflash_read: Read only register\n", []⟩, tegra_sflash_init⟩ :
      sflash_fatal).state = tegra_sflash_init :=
  ⟨(c17_fatal_offsets tegra_sflash_init 0x10 7).1.2 (by decide),
   (c17_fatal_offsets tegra_sflash_init 0x20 7).2.1.2 (by decide),
   (c17_fatal_offsets tegra_sflash_init 0x10 7).2.2.1 _ rfl,
   (c17_fatal_offsets tegra_sflash_init 0x20 7).2.2.2 _ rfl⟩

/-- C18: a read of the cache controller at an offset whose 12-bit value is not
`0x004` leaves every field as it is; the reads of the flash controller at `0x00`,
`0x04`, `0x0C`, `0x1C`, `0x20` and `0x180` return Command, Status, DMA Control, `0`,
`0` and `0` and leave every register as it is; the writes to `0x10`, `0x1C` and
`0x100` are accepted and leave every register as it is. -/
theorem c18_reads_change_nothing_else (c : l2x0_state) (s : tegra_sflash_state) (o v : Nat) :
    (o &&& 0xfff ≠ 0x004 → (l2x0_priv_read c o).state = c) ∧
    (tegra_sflash_read s 0x00).outcome = .ok (s.command, s) ∧
    (tegra_sflash_read s 0x04).outcome = .ok (s.status, s) ∧
    (tegra_sflash_read s 0x0C).outcome = .ok (s.dma_ctl, s) ∧
    (tegra_sflash_read s 0x1C).outcome = .ok (0, s) ∧
    (tegra_sflash_read s 0x20).outcome = .ok (0, s) ∧
    (tegra_sflash_read s 0x180).outcome = .ok (0, s) ∧
    (tegra_sflash_write s 0x10 v).outcome = .ok s ∧
    (tegra_sflash_write s 0x1C v).outcome = .ok s ∧
    (tegra_sflash_write s 0x100 v).outcome = .ok s :=
  ⟨l2x0_read_state_of_ne c o, rfl, rfl, rfl, rfl, rfl, rfl, rfl, rfl, rfl⟩

/-- C18, witness: a read of Aux Control through the alias `0x1104` on the default
cache controller. -/
theorem c18_reads_change_nothing_else_witness :
    (l2x0_priv_read (l2x0_init 0x1c100100) 0x1104).state = l2x0_init 0x1c100100 :=
  (c18_reads_change_nothing_else (l2x0_init 0x1c100100) tegra_sflash_init 0x1104 0).1
    (by decide)

/-- C19, counterexample: on the reset device the reads of `0x10` and of `0x100`
both end in `hw_error` with the same message, which has no argument, so the message
does not tell the offset of the access. -/
theorem c19_counterexample :
    ¬ ∀ (s : tegra_sflash_state) (o₁ o₂ : Nat) (f₁ f₂ : sflash_fatal),
      (tegra_sflash_read s o₁).outcome = .error f₁ →
      (tegra_sflash_read s o₂).outcome = .error f₂ →
      f₁.diag = f₂.diag → o₁ = o₂ := by
  intro h
  exact absurd (h tegra_sflash_init 0x10 0x100 _ _ rfl rfl rfl) (by decide)

/-- C19, as amended: at an offset outside the nine cases the message passed to
`hw_error` is the bad-offset message of the function called, with the offset as its
argument; every message of a fatal read begins with `tegra_sflash_read:`, and the
message of a fatal write at an offset other than `0x20` and `0x180` begins with
`tegra_sflash_write:`; the message for a read of `0x10` or `0x100` and the message
for a write of `0x20` or `0x180` have no argument and differ from the bad-offset
message. -/
theorem c19_fatal_diagnostics (s : tegra_sflash_state) (o v : Nat) :
    (o ∉ [0x00, 0x04, 0x08, 0x0c, 0x10, 0x1c, 0x20, 0x100, 0x180] →
      (tegra_sflash_read s o).outcome =
        .error ⟨⟨"tegra_sflash_read: Bad offset %x\n", [o % 2 ^ 32]⟩, s⟩ ∧
      (tegra_sflash_write s o v).outcome =
        .error ⟨⟨"tegra_sflash_write: Bad offset %x\n", [o % 2 ^ 32]⟩, s⟩) ∧
    (∀ f, (tegra_sflash_read s o).outcome = .error f →
      diag_begins_with f.diag "tegra_sflash_read:" = true) ∧
    (∀ f, (tegra_sflash_write s o v).outcome = .error f → o ∉ [0x20, 0x180] →
      diag_begins_with f.diag "tegra_sflash_write:" = true) ∧
    (∀ f, (tegra_sflash_read s o).outcome = .error f → o ∈ [0x10, 0x100] →
      f.diag.args = [] ∧ f.diag.fmt ≠ "tegra_sflash_read: Bad offset %x\n" ∧
        f.diag.fmt ≠ "tegra_sflash_write: Bad offset %x\n") ∧
    (∀ f, (tegra_sflash_write s o v).outcome = .error f → o ∈ [0x20, 0x180] →
      f.diag.args = [] ∧ f.diag.fmt ≠ "tegra_sflash_read: Bad offset %x\n" ∧
        f.diag.fmt ≠ "tegra_sflash_write: Bad offset %x\n") := by
  refine ⟨fun h => ⟨sflash_read_bad_offset s o h, sflash_write_bad_offset s o v h⟩,
    ?_, ?_, ?_, ?_⟩
  · intro f hf
    rcases sflash_read_cases s o with ⟨_, r, hr⟩ | ⟨_, he⟩ | ⟨_, he⟩
    · rw [hr] at hf
      cases hf
    · rw [he] at hf
      cases hf
      show diag_begins_with ⟨"tegra_sflash_read: Write only register\n", []⟩
        "tegra_sflash_read:" = true
      decide
    · rw [he] at hf
      cases hf
      rfl
  · intro f hf hn
    rcases sflash_write_cases s o v with ⟨_, r, hr⟩ | ⟨hm, _⟩ | ⟨_, he⟩
    · rw [hr] at hf
      cases hf
    · exact absurd hm hn
    · rw [he] at hf
      cases hf
      rfl
  · intro f hf hm
    rcases sflash_read_cases s o with ⟨_, r, hr⟩ | ⟨_, he⟩ | ⟨hn, _⟩
    · rw [hr] at hf
      cases hf
    · rw [he] at hf
      cases hf
      show ([] : List Nat) = [] ∧
        ("tegra_sflash_read: Write only register\n" : String) ≠
          "tegra_sflash_read: Bad offset %x\n" ∧
        ("tegra_sflash_read: Write only register\n" : String) ≠
          "tegra_sflash_write: Bad offset %x\n"
      decide
    · exfalso
      apply hn
      simp only [List.mem_cons, List.mem_singleton, List.not_mem_nil, or_false] at hm ⊢
      omega
  · intro f hf hm
    rcases sflash_write_cases s o v with ⟨_, r, hr⟩ | ⟨_, he⟩ | ⟨hn, _⟩
    · rw [hr] at hf
      cases hf
    · rw [he] at hf
      cases hf
      show ([] : List Nat) = [] ∧
        ("tegra_sflash_read: Read only register\n" : String) ≠
          "tegra_sflash_read: Bad offset %x\n" ∧
        ("tegra_sflash_read: Read only register\n" : String) ≠
          "tegra_sflash_write: Bad offset %x\n"
      decide
    · exfalso
      apply hn
      simp only [List.mem_cons, List.mem_singleton, List.not_mem_nil, or_false] at hm ⊢
      omega

/-- C19, witness: the unknown offset `0x24`, the read of `0x10` and the write of
`0x20` on the reset device. -/
theorem c19_fatal_diagnostics_witness :
    ((tegra_sflash_read tegra_sflash_init 0x24).outcome =
        .error ⟨⟨"tegra_sflash_read: Bad offset %x\n", [0x24 % 2 ^ 32]⟩, tegra_sflash_init⟩ ∧
      (tegra_sflash_write tegra_sflash_init 0x24 7).outcome =
        .error ⟨⟨"tegra_sflash_write: Bad offset %x\n", [0x24 % 2 ^ 32]⟩,
          tegra_sflash_init⟩) ∧
    diag_begins_with ⟨"tegra_sflash_read: Write only register\n", []⟩
      "tegra_sflash_read:" = true ∧
    diag_begins_with ⟨"tegra_sflash_write: Bad offset %x\n", [0x24 % 2 ^ 32]⟩
      "tegra_sflash_write:" = true ∧
    ((⟨"tegra_sflash_read: Write only register\n", []⟩ : Diag).args = [] ∧
      (⟨"tegra_sflash_read: Write only register\n", []⟩ : Diag).fmt ≠
        "tegra_sflash_read: Bad offset %x\n" ∧
      (⟨"tegra_sflash_read: Write only register\n", []⟩ : Diag).fmt ≠
        "tegra_sflash_write: Bad offset %x\n") ∧
    (∀ f, (tegra_sflash_write tegra_sflash_init 0x20 7).outcome = .error f →
      f.diag.args = [] ∧ f.diag.fmt ≠ "tegra_sflash_read: Bad offset %x\n" ∧
        f.diag.fmt ≠ "tegra_sflash_write: Bad offset %x\n") :=
  ⟨(c19_fatal_diagnostics tegra_sflash_init 0x24 7).1 (by decide),
   (c19_fatal_diagnostics tegra_sflash_init 0x10 7).2.1
     ⟨⟨"tegra_sflash_read: Write only register\n", []⟩, tegra_sflash_init⟩ rfl,
   (c19_fatal_diagnostics tegra_sflash_init 0x24 7).2.2.1
     ⟨⟨"tegra_sflash_write: Bad offset %x\n", [0x24 % 2 ^ 32]⟩, tegra_sflash_init⟩ rfl
     (by decide),
   (c19_fatal_diagnostics tegra_sflash_init 0x10 7).2.2.2.1
     ⟨⟨"tegra_sflash_read: Write only register\n", []⟩, tegra_sflash_init⟩ rfl
     (by decide),
   fun f hf => (c19_fatal_diagnostics tegra_sflash_init 0x20 7).2.2.2.2 f hf (by decide)⟩

/-- C20, counterexample: on the default device, after `0x000E0000` is written to
Aux Control a read of `0x004` changes the stored cache type outside the mask
`0x07400740` (bits 20 and 21 are gained). -/
theorem c20_counterexample :
    ¬ ∀ (s : l2x0_state) (op : l2x0_op),
      (l2x0_step s op).cache_type &&& not32 0x07400740 =
        s.cache_type &&& not32 0x07400740 := by
  intro h
  exact absurd
    (h (l2x0_priv_write (l2x0_init 0x1c100100) 0x104 0x000E0000).state (.read 0x004))
    (by decide)

/-- C20, as amended: the stored cache type only gains bits, and only inside the
mask `0x00740740`: every access (a read, a write or a reset) keeps every bit that
was set and keeps the stored cache type outside the mask, so in every state reached
from a constructed and reset device with base type `B` the base type is a bit-subset
of the stored cache type and both agree outside the mask. -/
theorem c20_cache_type_gains_bits :
    (∀ (s : l2x0_state) (op : l2x0_op),
      s.cache_type &&& (l2x0_step s op).cache_type = s.cache_type ∧
      (l2x0_step s op).cache_type &&& not32 0x00740740 =
        s.cache_type &&& not32 0x00740740) ∧
    (∀ (B : Nat) (ops : List l2x0_op),
      B &&& (l2x0_run (l2x0_init B) ops).cache_type = B ∧
      (l2x0_run (l2x0_init B) ops).cache_type &&& not32 0x00740740 =
        B &&& not32 0x00740740) := by
  constructor
  · intro s op
    obtain ⟨d, hd, hm⟩ := l2x0_step_cache_type_or s op
    rw [hd]
    exact ⟨and_or_self_left _ _, or_and_not32_mask _ _ _ hm⟩
  · intro B ops
    obtain ⟨d, hd, hm⟩ := l2x0_run_cache_type_or ops (l2x0_init B)
    rw [hd]
    exact ⟨and_or_self_left _ _, or_and_not32_mask _ _ _ hm⟩

end Tegra
